import Mathlib

/-!
Shallow embedding of the download-video-telegram-bot repository
(src/models.py, src/sender.py, src/downloader.py, src/error_handler.py,
src/url_parser.py, src/progress.py, src/auth.py) and proofs about the
spec claims C1..C10.

Modelling conventions:
* The filesystem is a function `String → Option Nat` mapping a path to
  the size of the file stored there (`none` = no file at that path).
* Python exceptions raised by the OS or the transport are modelled by
  explicit failure flags carried in a world state; a caught exception
  corresponds to the branch the `except` clause takes.
* Byte counts and sizes are naturals (`os.path.getsize` is nonnegative);
  the `-1` sentinel of `get_file_size` is modelled with `Int`.
* Python float percentages are modelled with `Rat` (exact rationals);
  the `%.1f` / `%.0f` float renderings of megabyte counts are modelled
  by rounding rationals to the nearest tenth / unit, half away from zero.
* Strings are Lean `String`s; Python `in` (substring test) and
  `str.lower` are implemented over the character lists.
-/

namespace Bot

/-- Platform enum from src/models.py. -/
inductive Platform where
  | YOUTUBE
  | FACEBOOK
  | INSTAGRAM
  | UNKNOWN
deriving DecidableEq, Repr

/-- DownloadError enum from src/models.py: the error categories.  Each value
carries a fixed Vietnamese message; the enum value strings are reproduced by
`DownloadError.value` below. -/
inductive DownloadError where
  | VIDEO_NOT_FOUND
  | ACCESS_DENIED
  | NETWORK_ERROR
  | FILE_TOO_LARGE
  | YTDLP_ERROR
  | UNKNOWN_ERROR
deriving DecidableEq, Repr

/-- The Vietnamese message bound to each DownloadError value (src/models.py). -/
def DownloadError.value : DownloadError → String
  | .VIDEO_NOT_FOUND => "Video không tồn tại hoặc đã bị xóa"
  | .ACCESS_DENIED => "Video bị giới hạn, không thể tải"
  | .NETWORK_ERROR => "Lỗi kết nối mạng, vui lòng thử lại sau"
  | .FILE_TOO_LARGE => "Video quá lớn (>50MB), không thể gửi qua Telegram"
  | .YTDLP_ERROR => "Lỗi yt-dlp, có thể cần cập nhật"
  | .UNKNOWN_ERROR => "Lỗi không xác định"

/-- DownloadResult dataclass from src/models.py. -/
structure DownloadResult where
  success : Bool
  file_path : Option String
  error_message : Option String
  file_size : Nat
deriving DecidableEq, Repr

/-! ## Delivery Manager (src/sender.py)

World state observed and mutated by the sender functions.  `removeFails`
models `os.remove` raising an OSError, `sizeFails` models
`os.path.getsize` raising, `sendRaises` models `bot.send_video` raising
with the given message text.  `cleanupCalls` counts invocations of
`cleanup_file` and `sendVideoCalls` counts invocations of the transport
video-send primitive, so that theorems can state "cleanup runs exactly
once" and "the transport is never invoked". -/

structure World where
  fs : String → Option Nat
  removeFails : Bool
  sizeFails : Bool
  sendRaises : Option String
  cleanupCalls : Nat
  sendVideoCalls : Nat

/-- DEFAULT_MAX_FILE_SIZE from src/sender.py (50MB in bytes). -/
def DEFAULT_MAX_FILE_SIZE : Nat := 50 * 1024 * 1024

/-- cleanup_file from src/sender.py: if the path exists, try to remove it
(an OS error is caught and reported as `false`); a missing file counts as
success.  Returns the Python boolean result and the updated world. -/
def cleanup_file (w : World) (file_path : String) : Bool × World :=
  let w := { w with cleanupCalls := w.cleanupCalls + 1 }
  match w.fs file_path with
  | some _ =>
      if w.removeFails then
        (false, w)
      else
        (true, { w with fs := fun q => if q = file_path then none else w.fs q })
  | none => (true, w)

/-- get_file_size from src/sender.py: size in bytes, or -1 when the file
does not exist or the size cannot be read (exception caught). -/
def get_file_size (w : World) (file_path : String) : Int :=
  match w.fs file_path with
  | some sz => if w.sizeFails then -1 else (sz : Int)
  | none => -1

/-- is_file_size_valid from src/sender.py: true iff the size is readable
and at most max_size. -/
def is_file_size_valid (w : World) (file_path : String)
    (max_size : Nat := DEFAULT_MAX_FILE_SIZE) : Bool :=
  let file_size := get_file_size w file_path
  if file_size < 0 then false else file_size ≤ (max_size : Int)

/-- Number of megabytes in tenths, rounding to nearest (model of the
Python float rendering `f / (1024*1024)` with format `:.1f`; ties are
rounded up rather than to even, a difference only at exact half-tenths of
a megabyte). -/
def mbTenths (bytes : Nat) : Nat := (10 * bytes + 524288) / 1048576

/-- Whole megabytes, rounding to nearest (model of format `:.0f`). -/
def mbWhole (bytes : Nat) : Nat := (bytes + 524288) / 1048576

/-- Renders a tenths count as a decimal string with one decimal place. -/
def fmtTenths (t : Nat) : String :=
  toString (t / 10) ++ "." ++ toString (t % 10)

/-- The oversize error message built in send_video (src/sender.py lines
150-155): actual size in MB to one decimal place, maximum in whole MB. -/
def oversizeMsg (file_size max_size : Nat) : String :=
  "Video quá lớn (" ++ fmtTenths (mbTenths file_size) ++ "MB > "
    ++ toString (mbWhole max_size)
    ++ "MB). Vui lòng thử giảm chất lượng hoặc cắt video ngắn hơn."

/-- send_video from src/sender.py.  The chat id is carried for fidelity
with the source signature; the transport itself is part of the world
(`sendRaises`).  The try-block computes the (success, error) pair; the
finally-block always runs cleanup_file on the path before returning. -/
def send_video (w : World) (_chat_id : Int) (file_path : String)
    (max_size : Nat := DEFAULT_MAX_FILE_SIZE) :
    (Bool × Option String) × World :=
  let body : (Bool × Option String) × World :=
    match w.fs file_path with
    | none => ((false, some "File video không tồn tại"), w)
    | some _ =>
      let file_size := get_file_size w file_path
      if file_size < 0 then
        ((false, some "Không thể đọc kích thước file"), w)
      else if (max_size : Int) < file_size then
        ((false, some (oversizeMsg file_size.toNat max_size)), w)
      else
        let w := { w with sendVideoCalls := w.sendVideoCalls + 1 }
        match w.sendRaises with
        | some e => ((false, some ("Lỗi khi gửi video: " ++ e)), w)
        | none => ((true, none), w)
  let r := body.1
  let w1 := body.2
  let w2 := (cleanup_file w1 file_path).2
  (r, w2)

/-! ## Download Orchestrator (src/downloader.py)

The yt-dlp engine is a black box: for one call it either completes
normally, raises the distinguished `yt_dlp.utils.DownloadError`, or
raises a generic exception; afterwards the filesystem holds whatever the
engine wrote.  `DLWorld.fs` is the filesystem as observed by the
post-download checks, `DLWorld.engine` the behaviour of
`ydl.download([url])` for this call.  The `uuid.uuid4()` hex string is a
parameter (`uuidStr`): the orchestrator only concatenates it. -/

inductive EngineResult where
  | ok
  | downloadError (msg : String)
  | genericError (msg : String)
deriving DecidableEq, Repr

structure DLWorld where
  engine : EngineResult
  fs : String → Option Nat

/-- os.path.join for a directory and a filename (the repository always
joins a directory with a relative filename). -/
def joinPath (dir name : String) : String := dir ++ "/" ++ name

/-- Characters before the last dot of a character list; the whole list
when there is no dot (model of Python `s.rsplit(".", 1)[0]`). -/
def basePathChars (s : List Char) : List Char :=
  match (s.reverse).dropWhile (fun c => c ≠ '.') with
  | [] => s
  | _ :: rest => rest.reverse

/-- The alternative-extension probe of download_video: returns the first
existing path among base+ext for ext in the fixed list, with its size. -/
def probeAlts (fs : String → Option Nat) (base : String) :
    List String → Option (String × Nat)
  | [] => none
  | ext :: rest =>
      let alt_path := base ++ ext
      match fs alt_path with
      | some sz => some (alt_path, sz)
      | none => probeAlts fs base rest

/-- The fixed list of probed extensions (src/downloader.py line 147). -/
def ALT_EXTENSIONS : List String := [".mp4", ".mkv", ".webm", ".m4a"]

/-- download_video from src/downloader.py.  The url is carried for
fidelity (the engine behaviour is part of the world); `uuidStr` stands
for `str(uuid.uuid4())`. -/
def download_video (w : DLWorld) (_url : String) (output_dir : String)
    (uuidStr : String) : DownloadResult :=
  let output_path := joinPath output_dir (uuidStr ++ ".mp4")
  match w.engine with
  | .downloadError msg =>
      { success := false, file_path := none, error_message := some msg,
        file_size := 0 }
  | .genericError msg =>
      { success := false, file_path := none, error_message := some msg,
        file_size := 0 }
  | .ok =>
    match w.fs output_path with
    | some file_size =>
        { success := true, file_path := some output_path,
          error_message := none, file_size := file_size }
    | none =>
      let base_path := String.mk (basePathChars output_path.data)
      match probeAlts w.fs base_path ALT_EXTENSIONS with
      | some (alt_path, file_size) =>
          { success := true, file_path := some alt_path,
            error_message := none, file_size := file_size }
      | none =>
          { success := false, file_path := none,
            error_message := some "File không được tạo sau khi tải",
            file_size := 0 }

/-! ## Progress handling (src/downloader.py, _handle_progress)

A yt-dlp progress event dictionary, restricted to the keys the code
reads.  Byte and fragment counters are modelled as naturals, percentages
as exact rationals.  The result is the argument passed to the progress
callback, or `none` when the callback is not invoked for this event. -/

structure ProgressDict where
  status : String
  downloaded_bytes : Nat
  total_bytes : Option Nat
  total_bytes_estimate : Option Nat
  fragment_index : Nat
  fragment_count : Nat

/-- Python `a or b` for an optional number: `none` and `0` are falsy. -/
def pyOrNat (a : Option Nat) (b : Nat) : Nat :=
  match a with
  | some n => if n = 0 then b else n
  | none => b

/-- handle_progress models `_handle_progress` from src/downloader.py for
the case where a callback is present (when the callback is `None` the
Python function returns immediately, which the `none` result covers
trivially).  The result is the percentage handed to the callback. -/
def handle_progress (d : ProgressDict) : Option Rat :=
  if d.status = "downloading" then
    let downloaded := d.downloaded_bytes
    let total := pyOrNat d.total_bytes (pyOrNat d.total_bytes_estimate 0)
    if 0 < total then
      some (min ((downloaded : Rat) / (total : Rat) * 100) 99)
    else if 0 < d.fragment_count then
      some (min ((d.fragment_index : Rat) / (d.fragment_count : Rat) * 100) 99)
    else
      none
  else if d.status = "finished" then
    some 100
  else
    none

/-! ## Error Classifier (src/error_handler.py)

The classifier receives the textual description of the exception
(`str(error)`); it lowercases it and tests keyword groups in order. -/

/-- Substring test over character lists (Python `needle in hay`). -/
def containsSub (hay needle : List Char) : Bool :=
  needle.isPrefixOf hay ||
    match hay with
    | [] => false
    | _ :: t => containsSub t needle

/-- Keyword group for VIDEO_NOT_FOUND (src/error_handler.py lines 75-84). -/
def not_found_keywords : List String :=
  ["video unavailable", "not found", "does not exist", "has been removed",
   "deleted", "unavailable", "no video", "404"]

/-- Keyword group for ACCESS_DENIED (lines 100-113). -/
def access_denied_keywords : List String :=
  ["private", "restricted", "age-restricted", "age restricted",
   "login required", "sign in", "members only", "subscribers only",
   "permission denied", "access denied", "forbidden", "403"]

/-- Keyword group for NETWORK_ERROR (lines 129-143). -/
def network_keywords : List String :=
  ["network", "connection", "timeout", "timed out", "unreachable", "dns",
   "socket", "ssl", "certificate", "connect error", "connection refused",
   "connection reset", "no internet"]

/-- Keyword group for the yt-dlp-needs-updating category (lines 159-167).
Note the sixth keyword of the source is "yt-dlp needs". -/
def update_keywords : List String :=
  ["update", "outdated", "upgrade", "new version", "please update",
   "yt-dlp needs", "extractor error"]

/-- any-keyword-contained test used by each `_is_*_error` helper. -/
def anyKeyword (error_str : String) (keywords : List String) : Bool :=
  keywords.any (fun k => containsSub error_str.data k.data)

/-- _is_video_not_found_error (expects the lowercased error string). -/
def is_video_not_found_error (error_str : String) : Bool :=
  anyKeyword error_str not_found_keywords

/-- _is_access_denied_error (expects the lowercased error string). -/
def is_access_denied_error (error_str : String) : Bool :=
  anyKeyword error_str access_denied_keywords

/-- _is_network_error (expects the lowercased error string). -/
def is_network_error (error_str : String) : Bool :=
  anyKeyword error_str network_keywords

/-- _is_ytdlp_update_error (expects the lowercased error string). -/
def is_ytdlp_update_error (error_str : String) : Bool :=
  anyKeyword error_str update_keywords

/-- Python `str.lower`, modelled on the ASCII range (all the keywords of
the classifier are ASCII). -/
def strLower (s : String) : String := String.mk (s.data.map Char.toLower)

/-- map_ytdlp_error from src/error_handler.py, on the textual description
of the exception (`str(error)`).  The side-effecting log_error call has
no observable effect on the returned category. -/
def map_ytdlp_error (errorText : String) : DownloadError :=
  let error_str := strLower errorText
  if is_video_not_found_error error_str then .VIDEO_NOT_FOUND
  else if is_access_denied_error error_str then .ACCESS_DENIED
  else if is_network_error error_str then .NETWORK_ERROR
  else if is_ytdlp_update_error error_str then .YTDLP_ERROR
  else .UNKNOWN_ERROR

/-- get_error_message from src/error_handler.py. -/
def get_error_message (e : DownloadError) : String := e.value

/-- get_user_friendly_error from src/error_handler.py. -/
def get_user_friendly_error (errorText : String) : String :=
  get_error_message (map_ytdlp_error errorText)

/-! ## Progress Reporter (src/progress.py)

The transport primitives are modelled as the outcome they would have for
this call: `Except.error e` models the Telegram API raising with message
`e`.  `send_progress` has no try/except in the source (its docstring
documents that it raises), so its model returns `Except`;
`update_progress` and `delete_progress` catch every exception and return
a boolean. -/

structure TgOps where
  send_message : Except String Nat
  edit_message_text : Except String Unit
  delete_message : Except String Unit

/-- ProgressManager.send_progress: forwards bot.send_message; an
exception propagates to the caller (no try/except in the source). -/
def send_progress (bot : TgOps) (_chat_id : Int) (_text : String) :
    Except String Nat :=
  bot.send_message

/-- ProgressManager.update_progress: true on success, false when
bot.edit_message_text raises (exception caught). -/
def update_progress (bot : TgOps) (_chat_id : Int) (_message_id : Nat)
    (_text : String) : Bool :=
  match bot.edit_message_text with
  | .ok _ => true
  | .error _ => false

/-- ProgressManager.delete_progress: true on success, false when
bot.delete_message raises (exception caught). -/
def delete_progress (bot : TgOps) (_chat_id : Int) (_message_id : Nat) :
    Bool :=
  match bot.delete_message with
  | .ok _ => true
  | .error _ => false

/-! ## Authorization (src/auth.py) -/

/-- is_authorized from src/auth.py. -/
def is_authorized (user_id owner_id : Int) : Bool := user_id = owner_id

/-- An incoming update as read by the wrapper: the effective user id, or
`none` when `update.effective_user is None`. -/
structure Update where
  effective_user : Option Int

/-- The wrapper produced by auth_decorator (src/auth.py), applied to an
inner handler.  The result records the value returned to the dispatcher
and whether the inner handler was invoked. -/
def auth_wrapper {α : Type} (owner_id : Int) (handler : Update → Option α)
    (update : Update) : Option α × Bool :=
  match update.effective_user with
  | none => (none, false)
  | some uid =>
      if is_authorized uid owner_id then (handler update, true)
      else (none, false)

/-! ## URL Recognizer (src/url_parser.py)

The platform patterns are Python regular expressions built from literal
text, greedy optional groups, a short alternation, and greedy
one-or-more character classes.  `RE` covers exactly these constructs and
`matchRE` reproduces the backtracking preference order of Python `re`
(leftmost start, greedy groups, alternatives in written order);
`reSearch` reproduces `re.search` (first matching start position wins,
returning the matched substring).  Python `\w` and `\d` are modelled on
the ASCII range (`Char.isAlphanum` and `Char.isDigit`), which covers the
URL shapes the spec describes. -/

inductive RE where
  | lit (chars : List Char)
  | seq (a b : RE)
  | alt (a b : RE)
  | opt (a : RE)
  | plus (cls : Char → Bool)

/-- Greedy one-or-more backtracking: try consuming n characters first,
then n-1, down to 1. -/
def tryFrom (s : List Char) (k : List Char → Option (List Char)) :
    Nat → Option (List Char)
  | 0 => none
  | n + 1 =>
      match k (s.drop (n + 1)) with
      | some out => some out
      | none => tryFrom s k n

/-- Backtracking matcher in continuation style.  `matchRE r s k` tries to
match `r` at the start of `s` and passes the remaining suffix to `k`,
exploring candidate splits in the preference order of Python `re`
(greedy, alternatives left first), returning the first success. -/
def matchRE : RE → List Char → (List Char → Option (List Char)) →
    Option (List Char)
  | .lit l, s, k => if l.isPrefixOf s then k (s.drop l.length) else none
  | .seq a b, s, k => matchRE a s (fun s1 => matchRE b s1 k)
  | .alt a b, s, k =>
      match matchRE a s k with
      | some out => some out
      | none => matchRE b s k
  | .opt a, s, k =>
      match matchRE a s k with
      | some out => some out
      | none => k s
  | .plus cls, s, k => tryFrom s k ((s.takeWhile cls).length)

/-- reSearch models `re.search`: try each start position from the left;
at the first position where the pattern matches, return the matched
substring (characters consumed by the preferred match). -/
def reSearch (r : RE) (s : List Char) : Option (List Char) :=
  match matchRE r s some with
  | some rest => some (s.take (s.length - rest.length))
  | none =>
      match s with
      | [] => none
      | _ :: t => reSearch r t

/-- Literal regex fragment from a string. -/
def reStr (s : String) : RE := .lit s.data

/-- Python `[\w-]` on the ASCII range. -/
def wordHyphen (c : Char) : Bool := c.isAlphanum || c = '_' || c = '-'

/-- Python `[\w._]` on the ASCII range. -/
def wordDotUnderscore (c : Char) : Bool := c.isAlphanum || c = '_' || c = '.'

/-- Python `.` (any character except newline). -/
def anyNotNewline (c : Char) : Bool := c ≠ '\n'

/-- `(?:https?://)?`. -/
def schemeOpt : RE := .opt (.seq (reStr "http") (.seq (.opt (reStr "s")) (reStr "://")))

/-- `(?:www\.)?`. -/
def wwwOpt : RE := .opt (reStr "www.")

/-- `(?:https?://)?(?:www\.)?youtube\.com/watch\?v=[\w-]+`. -/
def ytWatchRE : RE :=
  .seq schemeOpt (.seq wwwOpt (.seq (reStr "youtube.com/watch?v=") (.plus wordHyphen)))

/-- `(?:https?://)?(?:www\.)?youtube\.com/shorts/[\w-]+`. -/
def ytShortsRE : RE :=
  .seq schemeOpt (.seq wwwOpt (.seq (reStr "youtube.com/shorts/") (.plus wordHyphen)))

/-- `(?:https?://)?(?:www\.)?youtu\.be/[\w-]+`. -/
def ytBeRE : RE :=
  .seq schemeOpt (.seq wwwOpt (.seq (reStr "youtu.be/") (.plus wordHyphen)))

/-- `(?:https?://)?(?:www\.)?facebook\.com/.+/videos/\d+`. -/
def fbVideosRE : RE :=
  .seq schemeOpt (.seq wwwOpt (.seq (reStr "facebook.com/")
    (.seq (.plus anyNotNewline) (.seq (reStr "/videos/") (.plus Char.isDigit)))))

/-- `(?:https?://)?(?:www\.)?facebook\.com/reel/\d+`. -/
def fbReelRE : RE :=
  .seq schemeOpt (.seq wwwOpt (.seq (reStr "facebook.com/reel/") (.plus Char.isDigit)))

/-- `(?:https?://)?(?:www\.)?facebook\.com/stories/\d+`. -/
def fbStoriesRE : RE :=
  .seq schemeOpt (.seq wwwOpt (.seq (reStr "facebook.com/stories/") (.plus Char.isDigit)))

/-- `(?:https?://)?fb\.watch/[\w-]+` (no www group in the source). -/
def fbWatchRE : RE :=
  .seq schemeOpt (.seq (reStr "fb.watch/") (.plus wordHyphen))

/-- `(?:https?://)?(?:www\.)?instagram\.com/(?:p|reel|reels)/[\w-]+`. -/
def igPostRE : RE :=
  .seq schemeOpt (.seq wwwOpt (.seq (reStr "instagram.com/")
    (.seq (.alt (reStr "p") (.alt (reStr "reel") (reStr "reels")))
      (.seq (reStr "/") (.plus wordHyphen)))))

/-- `(?:https?://)?(?:www\.)?instagram\.com/stories/[\w._]+/\d+`. -/
def igStoriesRE : RE :=
  .seq schemeOpt (.seq wwwOpt (.seq (reStr "instagram.com/stories/")
    (.seq (.plus wordDotUnderscore) (.seq (reStr "/") (.plus Char.isDigit)))))

/-- YouTube sub-patterns in source order. -/
def youtubePatterns : List RE := [ytWatchRE, ytShortsRE, ytBeRE]

/-- Facebook sub-patterns in source order. -/
def facebookPatterns : List RE := [fbVideosRE, fbReelRE, fbStoriesRE, fbWatchRE]

/-- Instagram sub-patterns in source order. -/
def instagramPatterns : List RE := [igPostRE, igStoriesRE]

/-- PLATFORM_PATTERNS from src/url_parser.py in dict insertion order
(Python 3.7+ dicts iterate in insertion order). -/
def PLATFORM_PATTERNS : List (Platform × List RE) :=
  [(Platform.YOUTUBE, youtubePatterns),
   (Platform.FACEBOOK, facebookPatterns),
   (Platform.INSTAGRAM, instagramPatterns)]

/-- Try each pattern of one platform in order, returning the first
re.search result. -/
def searchList (pats : List RE) (text : List Char) : Option (List Char) :=
  match pats with
  | [] => none
  | p :: rest =>
      match reSearch p text with
      | some m => some m
      | none => searchList rest text

/-- The nested loop of parse_url over the platform-pattern table. -/
def parse_url_go : List (Platform × List RE) → List Char →
    Option (List Char) × Platform
  | [], _ => (none, Platform.UNKNOWN)
  | (plat, pats) :: rest, text =>
      match searchList pats text with
      | some m => (some m, plat)
      | none => parse_url_go rest text

/-- parse_url from src/url_parser.py. -/
def parse_url (text : String) : Option String × Platform :=
  match parse_url_go PLATFORM_PATTERNS text.data with
  | (some m, p) => (some (String.mk m), p)
  | (none, p) => (none, p)

/-- is_supported_platform from src/url_parser.py. -/
def is_supported_platform (p : Platform) : Bool := p ≠ Platform.UNKNOWN

/-! ## Auxiliary definitions used by the theorems -/

/-- Minimum number of characters any match of a pattern must consume. -/
def RE.minLen : RE → Nat
  | .lit l => l.length
  | .seq a b => a.minLen + b.minLen
  | .alt a b => min a.minLen b.minLen
  | .opt _ => 0
  | .plus _ => 1

/-- The DownloadOutcome invariant exactly as the spec words it (claim C3),
including a strictly positive file size on success.  This definition
follows the spec, not the source, in order to compare the two. -/
def specC3Invariant (r : DownloadResult) : Prop :=
  (r.success = true →
    r.file_path.isSome = true ∧ 0 < r.file_size ∧ r.error_message = none) ∧
  (r.success = false →
    r.file_path = none ∧ r.file_size = 0 ∧ r.error_message.isSome = true)

/-- Concrete delivery world: one 7MB file, no OS or transport failures. -/
def wFile : World :=
  { fs := fun q => if q = "/tmp/v.mp4" then some 7340032 else none,
    removeFails := false, sizeFails := false, sendRaises := none,
    cleanupCalls := 0, sendVideoCalls := 0 }

/-- Concrete download world: the engine raises the distinguished error. -/
def wEngineErr : DLWorld :=
  { engine := .downloadError "ERROR: Video unavailable", fs := fun _ => none }

/-- Concrete download world: the engine succeeds and leaves an empty file
at the expected output path. -/
def wZeroFile : DLWorld :=
  { engine := .ok, fs := fun q => if q = "/tmp/u.mp4" then some 0 else none }

/-- Concrete download world: the engine succeeds and leaves a 1KB file at
the expected output path. -/
def wGoodFile : DLWorld :=
  { engine := .ok, fs := fun q => if q = "/tmp/u.mp4" then some 1024 else none }

/-- Concrete transport where every status-message operation succeeds. -/
def tgOk : TgOps :=
  { send_message := .ok 42, edit_message_text := .ok (), delete_message := .ok () }

/-- Concrete transport where every status-message operation raises. -/
def tgBad : TgOps :=
  { send_message := .error "Telegram API error",
    edit_message_text := .error "Message not found",
    delete_message := .error "Message already deleted" }

/-- Concrete progress event: 50 of 100 bytes downloaded. -/
def dHalf : ProgressDict :=
  { status := "downloading", downloaded_bytes := 50, total_bytes := some 100,
    total_bytes_estimate := none, fragment_index := 0, fragment_count := 0 }

/-- Concrete progress event: 100 of 100 bytes downloaded, still in
progress. -/
def dFull : ProgressDict := { dHalf with downloaded_bytes := 100 }

/-- Concrete progress event: fragment counters only (3 of 4). -/
def dFrag : ProgressDict :=
  { status := "downloading", downloaded_bytes := 0, total_bytes := none,
    total_bytes_estimate := none, fragment_index := 3, fragment_count := 4 }

/-- Concrete progress event: terminal "finished" status with stale byte
counters. -/
def dDone : ProgressDict :=
  { status := "finished", downloaded_bytes := 100, total_bytes := some 100,
    total_bytes_estimate := none, fragment_index := 0, fragment_count := 0 }

/-- Concrete progress event: unknown status. -/
def dOther : ProgressDict := { dDone with status := "error" }

/-- Concrete progress event: in progress with neither byte totals nor
fragment counts. -/
def dEmpty : ProgressDict :=
  { status := "downloading", downloaded_bytes := 10, total_bytes := none,
    total_bytes_estimate := none, fragment_index := 0, fragment_count := 0 }

/-! ## Regex matcher bounds

These lemmas connect the backtracking matcher with `RE.minLen`: any
successful match consumes at least `minLen` characters, hence any
`re.search` result of a pattern with positive `minLen` is a non-empty
substring. -/

theorem tryFrom_bound (s : List Char) (k : List Char → Option (List Char))
    (out : List Char) :
    ∀ n, tryFrom s k n = some out →
      ∃ m, 1 ≤ m ∧ m ≤ n ∧ k (s.drop m) = some out := by
  intro n
  induction n with
  | zero => intro h; simp [tryFrom] at h
  | succ n ih =>
      intro h
      rw [tryFrom] at h
      cases hk : k (s.drop (n + 1)) with
      | some o =>
          rw [hk] at h
          exact ⟨n + 1, by omega, Nat.le_refl _, by rw [hk]; exact h⟩
      | none =>
          rw [hk] at h
          obtain ⟨m, h1, h2, h3⟩ := ih h
          exact ⟨m, h1, by omega, h3⟩

theorem matchRE_minLen (r : RE) :
    ∀ (s : List Char) (k : List Char → Option (List Char)) (out : List Char),
      matchRE r s k = some out →
      ∃ rest, k rest = some out ∧ rest.length + r.minLen ≤ s.length := by
  induction r with
  | lit l =>
      intro s k out h
      rw [matchRE] at h
      by_cases hp : l.isPrefixOf s
      · rw [if_pos hp] at h
        refine ⟨s.drop l.length, h, ?_⟩
        have hle := (List.isPrefixOf_iff_prefix.mp hp).length_le
        simp only [RE.minLen, List.length_drop]
        omega
      · rw [if_neg hp] at h
        exact absurd h (by simp)
  | seq a b iha ihb =>
      intro s k out h
      rw [matchRE] at h
      obtain ⟨s1, h1, hlen1⟩ := iha s _ out h
      obtain ⟨rest, h2, hlen2⟩ := ihb s1 k out h1
      refine ⟨rest, h2, ?_⟩
      simp only [RE.minLen]
      omega
  | alt a b iha ihb =>
      intro s k out h
      rw [matchRE] at h
      cases hm : matchRE a s k with
      | some o =>
          rw [hm] at h
          obtain ⟨rest, h2, hlen⟩ := iha s k out (hm.trans h)
          refine ⟨rest, h2, ?_⟩
          simp only [RE.minLen]
          omega
      | none =>
          rw [hm] at h
          obtain ⟨rest, h2, hlen⟩ := ihb s k out h
          refine ⟨rest, h2, ?_⟩
          simp only [RE.minLen]
          omega
  | opt a iha =>
      intro s k out h
      rw [matchRE] at h
      cases hm : matchRE a s k with
      | some o =>
          rw [hm] at h
          obtain ⟨rest, h2, hlen⟩ := iha s k out (hm.trans h)
          refine ⟨rest, h2, ?_⟩
          simp only [RE.minLen]
          omega
      | none =>
          rw [hm] at h
          refine ⟨s, h, ?_⟩
          simp [RE.minLen]
  | plus cls =>
      intro s k out h
      rw [matchRE] at h
      obtain ⟨m, h1, h2, h3⟩ := tryFrom_bound s k out _ h
      have hm : m ≤ s.length :=
        Nat.le_trans h2 (List.IsPrefix.length_le (List.takeWhile_prefix cls))
      refine ⟨s.drop m, h3, ?_⟩
      simp only [RE.minLen, List.length_drop]
      omega

theorem reSearch_minLen (r : RE) :
    ∀ (s m : List Char), reSearch r s = some m → r.minLen ≤ m.length := by
  intro s
  induction s with
  | nil =>
      intro m h
      rw [reSearch] at h
      cases hm : matchRE r [] some with
      | some rest =>
          rw [hm] at h
          obtain ⟨rest1, h1, hlen⟩ := matchRE_minLen r [] some rest hm
          have hmnil : m = [] := by simpa using h.symm
          rw [hmnil]
          simp only [List.length_nil] at hlen ⊢
          omega
      | none => rw [hm] at h; exact absurd h (by simp)
  | cons c t ih =>
      intro m h
      rw [reSearch] at h
      cases hm : matchRE r (c :: t) some with
      | some rest =>
          rw [hm] at h
          obtain ⟨rest1, h1, hlen⟩ := matchRE_minLen r (c :: t) some rest hm
          have hr1 : rest1 = rest := by simpa using h1
          rw [hr1] at hlen
          have hmv : m = (c :: t).take ((c :: t).length - rest.length) := by
            exact (Option.some_inj.mp h).symm
          rw [hmv]
          simp only [List.length_take, List.length_cons] at hlen ⊢
          omega
      | none =>
          rw [hm] at h
          exact ih m h

theorem searchList_ne_nil (pats : List RE) :
    ∀ (text m : List Char), (∀ p ∈ pats, 1 ≤ p.minLen) →
      searchList pats text = some m → m ≠ [] := by
  induction pats with
  | nil => intro text m _ h; simp [searchList] at h
  | cons p rest ih =>
      intro text m hmin h
      rw [searchList] at h
      cases hs : reSearch p text with
      | some m0 =>
          rw [hs] at h
          have h1 : m0 = m := by simpa using h
          subst h1
          have h2 := reSearch_minLen p text m0 hs
          have h3 : 1 ≤ p.minLen := hmin p (by simp)
          intro hnil
          rw [hnil] at h2
          simp at h2
          omega
      | none =>
          rw [hs] at h
          exact ih text m (fun q hq => hmin q (by simp [hq])) h

/-! ## Helper lemmas about send_video and download_video -/

theorem probeAlts_fs (fs : String → Option Nat) (base : String) :
    ∀ (l : List String) (a : String) (s : Nat),
      probeAlts fs base l = some (a, s) → fs a = some s := by
  intro l
  induction l with
  | nil =>
      intro a s h
      simp [probeAlts] at h
  | cons e rest ih =>
      intro a s h
      rw [probeAlts] at h
      cases hfs : fs (base ++ e) with
      | some sz =>
          rw [hfs] at h
          obtain ⟨ha, hs⟩ : base ++ e = a ∧ sz = s := by simpa using h
          rw [← ha, ← hs]
          exact hfs
      | none =>
          rw [hfs] at h
          exact ih a s h

theorem send_video_cleanupCalls (w : World) (c : Int) (p : String) (m : Nat) :
    (send_video w c p m).2.cleanupCalls = w.cleanupCalls + 1 := by
  rcases w with ⟨fs, rf, sf, sr, cc, svc⟩
  simp only [send_video, get_file_size]
  rcases hfs : fs p with _ | sz
  · simp [cleanup_file, hfs]
  · have h1 : ¬((sz : Int) < 0) := by omega
    cases sf <;> cases rf <;> rcases sr with _ | e <;>
      by_cases hms : (m : Int) < (sz : Int) <;>
        simp [cleanup_file, hfs, h1, hms]

theorem send_video_fs_after (w : World) (c : Int) (p : String) (m : Nat)
    (hrf : w.removeFails = false) :
    (send_video w c p m).2.fs p = none := by
  rcases w with ⟨fs, rf, sf, sr, cc, svc⟩
  simp only at hrf
  subst hrf
  simp only [send_video, get_file_size]
  rcases hfs : fs p with _ | sz
  · simp [cleanup_file, hfs]
  · have h1 : ¬((sz : Int) < 0) := by omega
    cases sf <;> rcases sr with _ | e <;>
      by_cases hms : (m : Int) < (sz : Int) <;>
        simp [cleanup_file, hfs, h1, hms]

theorem send_video_pair_ignores_removeFails (w : World) (c : Int)
    (p : String) (m : Nat) (b : Bool) :
    (send_video { w with removeFails := b } c p m).1 = (send_video w c p m).1 := by
  rcases w with ⟨fs, rf, sf, sr, cc, svc⟩
  simp only [send_video, get_file_size]
  rcases hfs : fs p with _ | sz
  · simp [hfs]
  · have h1 : ¬((sz : Int) < 0) := by omega
    cases sf <;> rcases sr with _ | e <;>
      by_cases hms : (m : Int) < (sz : Int) <;>
        simp [hfs, h1, hms]

/-! ## Claim theorems -/

/-- C1: on every exit path of send_video (missing file, unreadable size,
oversize, transport raise, success) cleanup_file runs exactly once on the
given path before the function returns; when the OS deletion itself does
not fail the path is absent afterwards; and a deletion failure changes
nothing in the returned (success, error) pair (and, the model being
total, never raises). -/
theorem send_video_always_cleans (w : World) (c : Int) (p : String)
    (m : Nat) (b : Bool) :
    (send_video w c p m).2.cleanupCalls = w.cleanupCalls + 1 ∧
    (w.removeFails = false → (send_video w c p m).2.fs p = none) ∧
    (send_video { w with removeFails := b } c p m).1 = (send_video w c p m).1 :=
  ⟨send_video_cleanupCalls w c p m,
   fun hrf => send_video_fs_after w c p m hrf,
   send_video_pair_ignores_removeFails w c p m b⟩

/-- C1 witness: the contract evaluated on a concrete world holding one
7MB file. -/
theorem send_video_always_cleans_witness :
    (send_video wFile 1 "/tmp/v.mp4" DEFAULT_MAX_FILE_SIZE).2.cleanupCalls =
      wFile.cleanupCalls + 1 ∧
    (send_video wFile 1 "/tmp/v.mp4" DEFAULT_MAX_FILE_SIZE).2.fs "/tmp/v.mp4" = none ∧
    (send_video { wFile with removeFails := true } 1 "/tmp/v.mp4"
        DEFAULT_MAX_FILE_SIZE).1 =
      (send_video wFile 1 "/tmp/v.mp4" DEFAULT_MAX_FILE_SIZE).1 := by
  obtain ⟨h1, h2, h3⟩ :=
    send_video_always_cleans wFile 1 "/tmp/v.mp4" DEFAULT_MAX_FILE_SIZE true
  exact ⟨h1, h2 rfl, h3⟩

/-- C2: for a readable file of size f, is_file_size_valid accepts exactly
when f ≤ m (so the boundary f = m is valid and f = m + 1 is not);
validity is monotone in the ceiling; and when the file exists with
readable size f > m, send_video fails with the oversize message (actual
size in MB to one decimal place, maximum in whole MB) and never invokes
the transport video-send primitive. -/
theorem size_check_and_oversize (w : World) (p : String) (c : Int)
    (f m m2 : Nat) :
    (w.fs p = some f → w.sizeFails = false →
      (is_file_size_valid w p m = true ↔ f ≤ m)) ∧
    (m ≤ m2 → is_file_size_valid w p m = true →
      is_file_size_valid w p m2 = true) ∧
    (w.fs p = some f → w.sizeFails = false → m < f →
      (send_video w c p m).1 = (false, some (oversizeMsg f m)) ∧
      (send_video w c p m).2.sendVideoCalls = w.sendVideoCalls) := by
  refine ⟨?_, ?_, ?_⟩
  · intro hfs hsf
    have h1 : ¬((f : Int) < 0) := by omega
    simp [is_file_size_valid, get_file_size, hfs, hsf, h1]
  · intro hle
    by_cases hg : get_file_size w p < 0
    · simp [is_file_size_valid, hg]
    · simp only [is_file_size_valid, if_neg hg, decide_eq_true_eq]
      intro h
      omega
  · intro hfs hsf hm
    rcases w with ⟨fs, rf, sf, sr, cc, svc⟩
    simp only at hfs hsf
    subst hsf
    have h1 : ¬((f : Int) < 0) := by omega
    have h2 : (m : Int) < (f : Int) := by omega
    constructor
    · simp [send_video, get_file_size, hfs, h1, h2]
    · cases rf <;> simp [send_video, cleanup_file, get_file_size, hfs, h1, h2]

/-- C2 witness: the gate evaluated on the concrete 7MB file: valid under
the 50MB default ceiling (boundary facts included), rejected with the
oversize message under a 1MB ceiling without touching the transport. -/
theorem size_check_and_oversize_witness :
    (is_file_size_valid wFile "/tmp/v.mp4" DEFAULT_MAX_FILE_SIZE = true ↔
      7340032 ≤ DEFAULT_MAX_FILE_SIZE) ∧
    (is_file_size_valid wFile "/tmp/v.mp4" 7340032 = true ↔ 7340032 ≤ 7340032) ∧
    (is_file_size_valid wFile "/tmp/v.mp4" 7340031 = true ↔ 7340032 ≤ 7340031) ∧
    (is_file_size_valid wFile "/tmp/v.mp4" DEFAULT_MAX_FILE_SIZE = true →
      is_file_size_valid wFile "/tmp/v.mp4" (2 * DEFAULT_MAX_FILE_SIZE) = true) ∧
    (send_video wFile 1 "/tmp/v.mp4" 1048576).1 =
      (false, some (oversizeMsg 7340032 1048576)) ∧
    (send_video wFile 1 "/tmp/v.mp4" 1048576).2.sendVideoCalls =
      wFile.sendVideoCalls := by
  obtain ⟨ha, -, -⟩ :=
    size_check_and_oversize wFile "/tmp/v.mp4" 1 7340032
      DEFAULT_MAX_FILE_SIZE (2 * DEFAULT_MAX_FILE_SIZE)
  obtain ⟨hb, -, -⟩ :=
    size_check_and_oversize wFile "/tmp/v.mp4" 1 7340032 7340032 7340032
  obtain ⟨hc, -, -⟩ :=
    size_check_and_oversize wFile "/tmp/v.mp4" 1 7340032 7340031 7340031
  obtain ⟨-, hd, -⟩ :=
    size_check_and_oversize wFile "/tmp/v.mp4" 1 7340032
      DEFAULT_MAX_FILE_SIZE (2 * DEFAULT_MAX_FILE_SIZE)
  obtain ⟨-, -, he⟩ :=
    size_check_and_oversize wFile "/tmp/v.mp4" 1 7340032 1048576 1048576
  refine ⟨ha rfl rfl, hb rfl rfl, hc rfl rfl, hd (by omega), ?_, ?_⟩
  · exact (he rfl rfl (by omega)).1
  · exact (he rfl rfl (by omega)).2

/-- C3 counterexample: the engine completes normally but the file at the
expected output path is empty (0 bytes); download_video then returns
success with file_size = 0, so the spec invariant "success implies file
size strictly greater than 0" fails on this outcome. -/
theorem download_success_zero_size_cex :
    ¬ specC3Invariant (download_video wZeroFile "https://youtu.be/a" "/tmp" "u") := by
  intro h
  have hs : (download_video wZeroFile "https://youtu.be/a" "/tmp" "u").success
      = true := by decide
  have hz : (download_video wZeroFile "https://youtu.be/a" "/tmp" "u").file_size
      = 0 := by decide
  have h2 := (h.1 hs).2.1
  omega

/-- C3 (amended): every DownloadResult returned by download_video
satisfies: success implies the file path is present, the reported file
size is exactly the size the filesystem holds for that path (which can
be 0 for an empty file), and the error description is absent; failure
implies the file path is absent, the file size is 0 and the error
description is present. -/
theorem download_result_invariant (w : DLWorld) (url dir uid : String) :
    ((download_video w url dir uid).success = true →
      (∃ p, (download_video w url dir uid).file_path = some p ∧
        w.fs p = some (download_video w url dir uid).file_size) ∧
      (download_video w url dir uid).error_message = none) ∧
    ((download_video w url dir uid).success = false →
      (download_video w url dir uid).file_path = none ∧
      (download_video w url dir uid).file_size = 0 ∧
      (download_video w url dir uid).error_message.isSome = true) := by
  rcases w with ⟨eng, fs⟩
  rcases eng with _ | msg | msg
  · simp only [download_video]
    rcases hfs : fs (joinPath dir (uid ++ ".mp4")) with _ | sz
    · rcases hp : probeAlts fs
          (String.mk (basePathChars (joinPath dir (uid ++ ".mp4")).data))
          ALT_EXTENSIONS with _ | ⟨a, s⟩
      · simp [hp]
      · constructor
        · intro _
          exact ⟨⟨a, rfl, probeAlts_fs fs _ ALT_EXTENSIONS a s hp⟩, rfl⟩
        · intro h
          simp at h
    · constructor
      · intro _
        exact ⟨⟨joinPath dir (uid ++ ".mp4"), rfl, hfs⟩, rfl⟩
      · intro h
        simp at h
  · simp [download_video]
  · simp [download_video]

/-- C3 witness: the amended invariant evaluated on a concrete successful
download (1KB file at the expected path): the returned path carries the
filesystem size and no error. -/
theorem download_result_invariant_witness :
    (∃ p, (download_video wGoodFile "https://youtu.be/a" "/tmp" "u").file_path
        = some p ∧
      wGoodFile.fs p =
        some (download_video wGoodFile "https://youtu.be/a" "/tmp" "u").file_size) ∧
    (download_video wGoodFile "https://youtu.be/a" "/tmp" "u").error_message
      = none :=
  (download_result_invariant wGoodFile "https://youtu.be/a" "/tmp" "u").1
    (by decide)

/-- C4: every exception of the extraction engine, both the distinguished
download-error condition and a generic exception, is converted into a
failure DownloadResult carrying the exception text; download_video (a
total function in this model) never lets it escape. -/
theorem download_video_catches_engine_errors (w : DLWorld)
    (url dir uid msg : String) :
    (w.engine = .downloadError msg →
      download_video w url dir uid =
        { success := false, file_path := none, error_message := some msg,
          file_size := 0 }) ∧
    (w.engine = .genericError msg →
      download_video w url dir uid =
        { success := false, file_path := none, error_message := some msg,
          file_size := 0 }) := by
  constructor <;> intro h <;> simp [download_video, h]

/-- C4 witness: the conversion evaluated on a concrete engine failure. -/
theorem download_video_catches_engine_errors_witness :
    download_video wEngineErr "https://youtu.be/a" "/tmp" "u" =
      { success := false, file_path := none,
        error_message := some "ERROR: Video unavailable", file_size := 0 } :=
  (download_video_catches_engine_errors wEngineErr "https://youtu.be/a" "/tmp"
    "u" "ERROR: Video unavailable").1 rfl

/-- C5: parse_url tries platforms in the fixed order YouTube, Facebook,
Instagram and, inside one platform, its sub-patterns in their listed
order, returning the first re.search match found (first pattern in
priority order, not the longest nor the earliest-in-text match); every
returned URL substring is non-empty, and when no pattern of any platform
matches the result is (no URL, Platform.UNKNOWN). -/
theorem parse_url_priority_order (text : String) :
    (∀ m, searchList youtubePatterns text.data = some m →
      parse_url text = (some (String.mk m), Platform.YOUTUBE) ∧ m ≠ []) ∧
    (searchList youtubePatterns text.data = none →
      ∀ m, searchList facebookPatterns text.data = some m →
      parse_url text = (some (String.mk m), Platform.FACEBOOK) ∧ m ≠ []) ∧
    (searchList youtubePatterns text.data = none →
      searchList facebookPatterns text.data = none →
      ∀ m, searchList instagramPatterns text.data = some m →
      parse_url text = (some (String.mk m), Platform.INSTAGRAM) ∧ m ≠ []) ∧
    (searchList youtubePatterns text.data = none →
      searchList facebookPatterns text.data = none →
      searchList instagramPatterns text.data = none →
      parse_url text = (none, Platform.UNKNOWN)) ∧
    (∀ m, reSearch ytWatchRE text.data = some m →
      parse_url text = (some (String.mk m), Platform.YOUTUBE)) := by
  have hyt : ∀ p ∈ youtubePatterns, 1 ≤ p.minLen := by decide
  have hfb : ∀ p ∈ facebookPatterns, 1 ≤ p.minLen := by decide
  have hig : ∀ p ∈ instagramPatterns, 1 ≤ p.minLen := by decide
  refine ⟨?_, ?_, ?_, ?_, ?_⟩
  · intro m hm
    refine ⟨?_, searchList_ne_nil _ _ _ hyt hm⟩
    simp [parse_url, parse_url_go, PLATFORM_PATTERNS, hm]
  · intro h1 m hm
    refine ⟨?_, searchList_ne_nil _ _ _ hfb hm⟩
    simp [parse_url, parse_url_go, PLATFORM_PATTERNS, h1, hm]
  · intro h1 h2 m hm
    refine ⟨?_, searchList_ne_nil _ _ _ hig hm⟩
    simp [parse_url, parse_url_go, PLATFORM_PATTERNS, h1, h2, hm]
  · intro h1 h2 h3
    simp [parse_url, parse_url_go, PLATFORM_PATTERNS, h1, h2, h3]
  · intro m hm
    simp [parse_url, parse_url_go, PLATFORM_PATTERNS, searchList, hm]

/-- C5 witness: the priority contract evaluated on a concrete text
containing a YouTube short-link. -/
theorem parse_url_priority_order_witness :
    parse_url "see youtu.be/abc" = (some "youtu.be/abc", Platform.YOUTUBE) ∧
    "youtu.be/abc".data ≠ ([] : List Char) := by
  have h := (parse_url_priority_order "see youtu.be/abc").1
    "youtu.be/abc".data (by decide)
  exact ⟨h.1, h.2⟩

/-- C6: the progress translation of _handle_progress: a "downloading"
event with a known (truthy) byte total reports downloaded/total*100
capped at 99; with no byte total but a nonzero fragment count it reports
the fragment ratio capped at 99; a "finished" event always reports
exactly 100 regardless of byte counters; every value reported before the
"finished" event is at most 99; and an event with any other status, or a
"downloading" event with neither totals nor fragment counts, reports
nothing. -/
theorem handle_progress_cases (d : ProgressDict) :
    (d.status = "downloading" →
      0 < pyOrNat d.total_bytes (pyOrNat d.total_bytes_estimate 0) →
      handle_progress d =
        some (min ((d.downloaded_bytes : Rat) /
          ((pyOrNat d.total_bytes (pyOrNat d.total_bytes_estimate 0) : Nat) : Rat)
            * 100) 99)) ∧
    (d.status = "downloading" →
      pyOrNat d.total_bytes (pyOrNat d.total_bytes_estimate 0) = 0 →
      0 < d.fragment_count →
      handle_progress d =
        some (min ((d.fragment_index : Rat) / (d.fragment_count : Rat) * 100) 99)) ∧
    (d.status = "finished" → handle_progress d = some 100) ∧
    (∀ q, handle_progress d = some q → d.status ≠ "finished" → q ≤ 99) ∧
    (d.status ≠ "downloading" → d.status ≠ "finished" →
      handle_progress d = none) ∧
    (d.status = "downloading" →
      pyOrNat d.total_bytes (pyOrNat d.total_bytes_estimate 0) = 0 →
      d.fragment_count = 0 → handle_progress d = none) := by
  refine ⟨?_, ?_, ?_, ?_, ?_, ?_⟩
  · intro hd ht
    simp [handle_progress, hd, ht]
  · intro hd ht hf
    simp [handle_progress, hd, ht, hf]
  · intro hf
    by_cases hd : d.status = "downloading"
    · rw [hd] at hf
      exact absurd hf (by decide)
    · simp [handle_progress, hd, hf]
  · intro q hq hnf
    by_cases hd : d.status = "downloading"
    · by_cases ht : 0 < pyOrNat d.total_bytes (pyOrNat d.total_bytes_estimate 0)
      · simp [handle_progress, hd, ht] at hq
        rw [← hq]
        exact min_le_right _ _
      · by_cases hf : 0 < d.fragment_count
        · simp [handle_progress, hd, ht, hf] at hq
          rw [← hq]
          exact min_le_right _ _
        · simp [handle_progress, hd, ht, hf] at hq
    · simp [handle_progress, hd, hnf] at hq
  · intro hd hf
    simp [handle_progress, hd, hf]
  · intro hd ht hf
    simp [handle_progress, hd, ht, hf]

/-- C6 witness: the translation evaluated on concrete events: 50/100 in
progress reports 50, 100/100 in progress reports 99, 3/4 fragments
reports 75, "finished" reports 100, and unknown-status or counterless
events report nothing. -/
theorem handle_progress_cases_witness :
    handle_progress dHalf = some 50 ∧
    handle_progress dFull = some 99 ∧
    handle_progress dFrag = some 75 ∧
    handle_progress dDone = some 100 ∧
    handle_progress dOther = none ∧
    handle_progress dEmpty = none := by
  refine ⟨?_, ?_, ?_, ?_, ?_, ?_⟩
  · rw [(handle_progress_cases dHalf).1 rfl (by decide)]
    rw [min_eq_left (by norm_num [dHalf, pyOrNat])]
    norm_num [dHalf, pyOrNat]
  · rw [(handle_progress_cases dFull).1 rfl (by decide)]
    rw [min_eq_right (by norm_num [dFull, dHalf, pyOrNat])]
  · rw [(handle_progress_cases dFrag).2.1 rfl (by decide) (by decide)]
    rw [min_eq_left (by norm_num [dFrag])]
    norm_num [dFrag]
  · exact (handle_progress_cases dDone).2.2.1 rfl
  · exact (handle_progress_cases dOther).2.2.2.2.1 (by decide) (by decide)
  · exact (handle_progress_cases dEmpty).2.2.2.2.2 rfl (by decide) (by decide)

/-- C7 counterexample: the error text "404 private update" contains an
access-denied keyword ("private") and an update keyword ("update"), yet
the classifier returns VIDEO_NOT_FOUND, because the text also contains
the keyword "404" of the higher-priority not-found group; the claim that
every such text classifies as ACCESS_DENIED therefore fails. -/
theorem classify_both_groups_cex :
    is_access_denied_error (strLower "404 private update") = true ∧
    is_ytdlp_update_error (strLower "404 private update") = true ∧
    map_ytdlp_error "404 private update" = DownloadError.VIDEO_NOT_FOUND ∧
    map_ytdlp_error "404 private update" ≠ DownloadError.ACCESS_DENIED :=
  ⟨by decide, by decide, by decide, by decide⟩

/-- C7 (amended): case-insensitive ordered keyword-group matching with
first-group-wins priority: a text containing a not-found keyword (in
particular together with a network keyword) classifies as
VIDEO_NOT_FOUND; a text containing an access-denied keyword and an update
keyword, and no keyword of the higher-priority not-found group,
classifies as ACCESS_DENIED; and a text containing no keyword of any
group classifies as UNKNOWN_ERROR. -/
theorem classify_priority_order (s : String) :
    (is_video_not_found_error (strLower s) = true →
      is_network_error (strLower s) = true →
      map_ytdlp_error s = DownloadError.VIDEO_NOT_FOUND) ∧
    (is_video_not_found_error (strLower s) = false →
      is_access_denied_error (strLower s) = true →
      is_ytdlp_update_error (strLower s) = true →
      map_ytdlp_error s = DownloadError.ACCESS_DENIED) ∧
    (is_video_not_found_error (strLower s) = false →
      is_access_denied_error (strLower s) = false →
      is_network_error (strLower s) = false →
      is_ytdlp_update_error (strLower s) = false →
      map_ytdlp_error s = DownloadError.UNKNOWN_ERROR) := by
  refine ⟨?_, ?_, ?_⟩
  · intro h1 _
    simp [map_ytdlp_error, h1]
  · intro h1 h2 _
    simp [map_ytdlp_error, h1, h2]
  · intro h1 h2 h3 h4
    simp [map_ytdlp_error, h1, h2, h3, h4]

/-- C7 witness: the priority rules evaluated on concrete error texts. -/
theorem classify_priority_order_witness :
    map_ytdlp_error "Video unavailable: connection lost"
      = DownloadError.VIDEO_NOT_FOUND ∧
    map_ytdlp_error "Private video, please update yt-dlp"
      = DownloadError.ACCESS_DENIED ∧
    map_ytdlp_error "weird" = DownloadError.UNKNOWN_ERROR := by
  refine ⟨?_, ?_, ?_⟩
  · exact (classify_priority_order "Video unavailable: connection lost").1
      (by decide) (by decide)
  · exact (classify_priority_order "Private video, please update yt-dlp").2.1
      (by decide) (by decide) (by decide)
  · exact (classify_priority_order "weird").2.2
      (by decide) (by decide) (by decide) (by decide)

/-- C8 counterexample: the update keyword group of the source contains
"yt-dlp needs" rather than "extractor needs"; the text "extractor needs"
matches no keyword group at all and classifies as UNKNOWN_ERROR instead
of the extractor-outdated category. -/
theorem update_keywords_cex :
    ¬ ("extractor needs" ∈ update_keywords) ∧
    map_ytdlp_error "extractor needs" = DownloadError.UNKNOWN_ERROR :=
  ⟨by decide, by decide⟩

/-- C8 (amended): the update keyword group contains exactly "update",
"outdated", "upgrade", "new version", "please update", "yt-dlp needs" and
"extractor error"; every text containing "yt-dlp needs" and no keyword of
a higher-priority group classifies as the extractor-outdated category
(YTDLP_ERROR). -/
theorem update_keywords_content (s : String) :
    update_keywords = ["update", "outdated", "upgrade", "new version",
      "please update", "yt-dlp needs", "extractor error"] ∧
    (containsSub (strLower s).data "yt-dlp needs".data = true →
      is_video_not_found_error (strLower s) = false →
      is_access_denied_error (strLower s) = false →
      is_network_error (strLower s) = false →
      map_ytdlp_error s = DownloadError.YTDLP_ERROR) := by
  refine ⟨rfl, ?_⟩
  intro hc h1 h2 h3
  have hupd : is_ytdlp_update_error (strLower s) = true := by
    simp only [is_ytdlp_update_error, anyKeyword, List.any_eq_true]
    exact ⟨"yt-dlp needs", by simp [update_keywords], hc⟩
  simp [map_ytdlp_error, h1, h2, h3, hupd]

/-- C8 witness: a concrete text containing "yt-dlp needs" and nothing of
the other groups classifies as YTDLP_ERROR. -/
theorem update_keywords_content_witness :
    map_ytdlp_error "yt-dlp needs更新" = DownloadError.YTDLP_ERROR :=
  (update_keywords_content "yt-dlp needs更新").2
    (by decide) (by decide) (by decide) (by decide)

/-- C9 counterexample: a failure of sending a new status message is not
caught inside ProgressManager.send_progress: the transport exception
propagates to the caller (the source has no try/except there, and its
docstring documents the raise), so the claim that all three operations
report failures as booleans fails for the send operation. -/
theorem send_progress_raises_cex :
    send_progress tgBad 1 "Đang tải video..."
      = Except.error "Telegram API error" := rfl

/-- C9 (amended): failures of editing and of deleting the status message
are caught inside the Progress Reporter and reported to the caller as a
boolean false (true on success) and never propagate; send_progress merely
forwards the transport outcome, so a failure to send a new status message
propagates as the raised exception. -/
theorem progress_ops_catch (bot : TgOps) (c : Int) (mid : Nat)
    (t : String) (e : String) :
    (bot.edit_message_text = Except.error e →
      update_progress bot c mid t = false) ∧
    (bot.edit_message_text = Except.ok () →
      update_progress bot c mid t = true) ∧
    (bot.delete_message = Except.error e →
      delete_progress bot c mid = false) ∧
    (bot.delete_message = Except.ok () →
      delete_progress bot c mid = true) ∧
    send_progress bot c t = bot.send_message := by
  refine ⟨?_, ?_, ?_, ?_, rfl⟩ <;>
    intro h <;> simp [update_progress, delete_progress, h]

/-- C9 witness: the boolean reporting evaluated on concrete transports
that raise and that succeed. -/
theorem progress_ops_catch_witness :
    update_progress tgBad 1 7 "x" = false ∧
    delete_progress tgBad 1 7 = false ∧
    update_progress tgOk 1 7 "x" = true ∧
    delete_progress tgOk 1 7 = true ∧
    send_progress tgOk 1 "x" = tgOk.send_message := by
  obtain ⟨h1, -, -, -, -⟩ := progress_ops_catch tgBad 1 7 "x" "Message not found"
  obtain ⟨-, -, h3, -, -⟩ :=
    progress_ops_catch tgBad 1 7 "x" "Message already deleted"
  obtain ⟨-, h2, -, h4, h5⟩ := progress_ops_catch tgOk 1 7 "x" ""
  exact ⟨h1 rfl, h3 rfl, h2 rfl, h4 rfl, h5⟩

/-- C10: the wrapper produced by auth_decorator returns None without
invoking the inner handler when the update has no effective user or when
the effective user id differs from the configured owner id, and invokes
the inner handler exactly when the ids are equal. -/
theorem auth_wrapper_gate {α : Type} (owner_id : Int)
    (handler : Update → Option α) (u : Update) :
    (u.effective_user = none → auth_wrapper owner_id handler u = (none, false)) ∧
    (∀ uid, u.effective_user = some uid → uid ≠ owner_id →
      auth_wrapper owner_id handler u = (none, false)) ∧
    (∀ uid, u.effective_user = some uid → uid = owner_id →
      auth_wrapper owner_id handler u = (handler u, true)) := by
  refine ⟨?_, ?_, ?_⟩
  · intro h
    simp [auth_wrapper, h]
  · intro uid h hne
    simp [auth_wrapper, h, is_authorized, hne]
  · intro uid h heq
    simp [auth_wrapper, h, is_authorized, heq]

/-- C10 witness: the gate evaluated with owner id 99 on the three kinds
of update. -/
theorem auth_wrapper_gate_witness :
    auth_wrapper 99 (fun _ => some (7 : Nat)) { effective_user := none }
      = (none, false) ∧
    auth_wrapper 99 (fun _ => some (7 : Nat)) { effective_user := some 5 }
      = (none, false) ∧
    auth_wrapper 99 (fun _ => some (7 : Nat)) { effective_user := some 99 }
      = (some 7, true) := by
  obtain ⟨h1, -, -⟩ :=
    auth_wrapper_gate 99 (fun _ => some (7 : Nat)) { effective_user := none }
  obtain ⟨-, h2, -⟩ :=
    auth_wrapper_gate 99 (fun _ => some (7 : Nat)) { effective_user := some 5 }
  obtain ⟨-, -, h3⟩ :=
    auth_wrapper_gate 99 (fun _ => some (7 : Nat)) { effective_user := some 99 }
  exact ⟨h1 rfl, h2 5 rfl (by decide), h3 99 rfl rfl⟩

end Bot

